import Mathlib

/-!
Verification development for the rate-governed dispatcher and the
cooperative operation state machine of the Discord-Purge repository
(src/src-tauri/src/api/rate_limiter.rs, src/src-tauri/src/api/discord.rs,
src/src-tauri/src/core/op_manager.rs).

Shallow embedding conventions:
  - `Instant` and `Duration` values are modelled as natural numbers
    counting milliseconds; one second is 1000 units.
  - Header values are modelled as the result of the
    header-get / to_str / parse chain of the source: `none` stands for
    a header that is absent or failed to parse, `some v` for a header
    that parsed to `v` (durations converted to milliseconds).
  - The map of buckets is a total function from route keys to
    `Option BucketInfo`; `none` means the key is not present in the
    HashMap.
-/

namespace DiscordPurge

/-- One second expressed in the millisecond time scale of the model. -/
def oneSecond : Nat := 1000

/-- Embeds `BucketInfo` of src/src-tauri/src/api/rate_limiter.rs. -/
structure BucketInfo where
  remaining : Nat
  reset_at : Nat
  limit : Nat
  consecutive_429s : Nat
deriving DecidableEq, Repr

/-- Embeds `impl Default for BucketInfo`: `remaining = 1`,
`reset_at = Instant::now()`, `limit = 1`, `consecutive_429s = 0`.
The creation instant is passed explicitly. -/
def BucketInfo.defaultAt (now : Nat) : BucketInfo :=
  { remaining := 1, reset_at := now, limit := 1, consecutive_429s := 0 }

/-- The rate-limit related response headers, each modelled as the result
of the `headers.get(..).and_then(to_str).and_then(parse)` chain of the
source: `none` when the header is absent or unparseable.  Durations
(`X-RateLimit-Reset-After`, `Retry-After`) are in milliseconds.
`X-RateLimit-Global` keeps its raw string value because the source
compares it to the literal string `true`. -/
structure Headers where
  xRateLimitRemaining : Option Nat
  xRateLimitResetAfter : Option Nat
  xRateLimitLimit : Option Nat
  retryAfter : Option Nat
  xRateLimitGlobal : Option String
deriving DecidableEq, Repr

/-- A response with none of the rate-limit headers set. -/
def noHeaders : Headers :=
  { xRateLimitRemaining := none, xRateLimitResetAfter := none,
    xRateLimitLimit := none, retryAfter := none, xRateLimitGlobal := none }

/-- The mutable shared state of `RateLimiterActor`: the bucket HashMap
and the global reset instant. -/
structure LimiterState where
  buckets : String → Option BucketInfo
  global_reset_at : Nat

/-- `buckets.entry(route).or_default()`: the existing bucket, or a fresh
default one created at instant `now`. -/
def LimiterState.entryOrDefault (st : LimiterState) (route : String) (now : Nat) :
    BucketInfo :=
  (st.buckets route).getD (BucketInfo.defaultAt now)

/-- Writes one bucket back into the map, leaving all other keys as they
were. -/
def LimiterState.writeBucket (st : LimiterState) (route : String) (b : BucketInfo) :
    LimiterState :=
  { st with buckets := fun r => if r = route then some b else st.buckets r }

/-- The wait computed in the 429 branch of `update_limits`:
`Retry-After` (defaulting to 1.0 seconds when absent or unparseable),
plus an exponential backoff term `2 ^ min(consecutive_429s, 6)` seconds
when `consecutive_429s > 1`. -/
def throttleWait (headers : Headers) (consecutive_429s : Nat) : Nat :=
  let retry_after := headers.retryAfter.getD oneSecond
  if consecutive_429s > 1 then
    retry_after + oneSecond * 2 ^ (min consecutive_429s 6)
  else
    retry_after

/-- Embeds lines 202-206 of rate_limiter.rs: `consecutive_429s` is
incremented on a 429 and cleared on any other response. -/
def bumpConsecutive (b : BucketInfo) (is_429 : Bool) : BucketInfo :=
  if is_429 then { b with consecutive_429s := b.consecutive_429s + 1 }
  else { b with consecutive_429s := 0 }

/-- Embeds lines 208-220 of rate_limiter.rs: each of the three
`X-RateLimit-*` headers, when present and parseable, overwrites the
corresponding bucket field. -/
def applyFeedbackHeaders (b : BucketInfo) (headers : Headers) (now : Nat) :
    BucketInfo :=
  let b2 :=
    match headers.xRateLimitRemaining with
    | some rem => { b with remaining := rem }
    | none => b
  let b3 :=
    match headers.xRateLimitResetAfter with
    | some reset => { b2 with reset_at := now + reset }
    | none => b2
  match headers.xRateLimitLimit with
  | some lim => { b3 with limit := lim }
  | none => b3

/-- Embeds `RateLimiterActor::update_limits` (rate_limiter.rs lines
195-256).  The bucket for `route` is looked up or default-created, its
`consecutive_429s` is incremented (on a 429) or cleared, the three
`X-RateLimit-*` headers overwrite `remaining` / `reset_at` / `limit`
when present, and on a 429 the computed wait either moves the global
reset instant (when `X-RateLimit-Global` is the string `true`) or
exhausts the bucket until `now + wait`. -/
def update_limits (st : LimiterState) (route : String) (headers : Headers)
    (is_429 : Bool) (now : Nat) : LimiterState :=
  let b4 :=
    applyFeedbackHeaders (bumpConsecutive (st.entryOrDefault route now) is_429)
      headers now
  if is_429 then
    let wait := throttleWait headers b4.consecutive_429s
    if headers.xRateLimitGlobal = some "true" then
      { (st.writeBucket route b4) with global_reset_at := now + wait }
    else
      st.writeBucket route { b4 with remaining := 0, reset_at := now + wait }
  else
    st.writeBucket route b4

/-- A concrete limiter state with one established bucket, used by
concrete instances below. -/
def demoState : LimiterState :=
  { buckets := fun r => if r = "channels/1" then
      some { remaining := 5, reset_at := 0, limit := 5, consecutive_429s := 0 }
      else none,
    global_reset_at := 0 }

/-- Headers of a global 429 carrying only Retry-After: 2 (seconds). -/
def demoGlobalHeaders : Headers :=
  { noHeaders with retryAfter := some 2000, xRateLimitGlobal := some "true" }

/-- Headers of a route-local 429 carrying only Retry-After: 2 (seconds). -/
def demoLocalHeaders : Headers :=
  { noHeaders with retryAfter := some 2000 }

/-! ## The dispatch loop of `RateLimiterActor::run` -/

/-- `const MAX_RETRIES: u32 = 3` of rate_limiter.rs line 98. -/
def MAX_RETRIES : Nat := 3

/-- The outcome of one attempted `req_builder.send().await`: either a
transport-level failure (the `Err` arm of the match at line 179) or a
completed HTTP response with a status code and rate-limit headers. -/
inductive AttemptOutcome where
  | transportErr
  | response (status : Nat) (headers : Headers)
deriving DecidableEq, Repr

/-- What is delivered over `response_tx`: `Ok(response)` (modelled by
the status and headers of the response) or `Err(AppError::from(e))`
after transport-retry exhaustion. -/
inductive SendResult where
  | ok (status : Nat) (headers : Headers)
  | err
deriving DecidableEq, Repr

/-- `reqwest::StatusCode::is_success`: 2xx. -/
def is_success (s : Nat) : Bool := decide (200 ≤ s) && decide (s < 300)

/-- `reqwest::StatusCode::is_server_error`: 5xx. -/
def is_server_error (s : Nat) : Bool := decide (500 ≤ s) && decide (s < 600)

/-- The loop-local state of one trip through the `loop` of `run`
(rate_limiter.rs lines 100-191) for a single inbox request:
the shared limiter state, the `retry_count` counter, the index of the
next attempt in the outcome script, the current instant, and the
recorded send instants and retry-backoff sleeps. -/
structure LoopIterState where
  st : LimiterState
  retry_count : Nat
  attemptIdx : Nat
  now : Nat
  sendTimes : List Nat
  backoffs : List Nat

/-- What the loop produced for the caller: the delivered result, the
total number of attempts made, the instants of those attempts, the
retry-backoff sleeps taken, and the shared state and clock on exit. -/
structure LoopExit where
  result : SendResult
  attempts : Nat
  sendTimes : List Nat
  backoffs : List Nat
  finalState : LimiterState
  finalNow : Nat

/-- Embeds lines 119-121 of rate_limiter.rs: once the current instant
passes `reset_at`, the window is lazily rolled (`remaining := limit`). -/
def rollBucket (b : BucketInfo) (now : Nat) : BucketInfo :=
  if b.reset_at ≤ now then { b with remaining := b.limit } else b

/-- Embeds line 126 of rate_limiter.rs: an exhausted bucket whose wait
is already zero is refilled in place instead of sleeping. -/
def refillIfZero (b : BucketInfo) : BucketInfo :=
  if b.remaining = 0 then { b with remaining := b.limit } else b

/-- Embeds lines 150-153 of rate_limiter.rs: non-GET requests sleep a
randomized jitter before the send; the random draw for the i-th
attempt is supplied by `jitterOf`. -/
def jitteredSend (isGet : Bool) (jitterOf : Nat → Nat) (idx now : Nat) : Nat :=
  if isGet then now else now + jitterOf idx

/-- Embeds the `loop` of `RateLimiterActor::run` (rate_limiter.rs lines
100-191) for one request, as a fuel-indexed interpreter; `none` means
the fuel ran out before the loop delivered a result (the loop would
still be running).  `attempts i` is the outcome the HTTP transport
would produce for the i-th send.  Sleeps advance the clock:
the global-throttle wait, the exhausted-bucket wait plus its 100 ms
buffer, the pre-send jitter for non-GET requests (`jitterOf`), and the
linear `retry_count`-seconds backoff sleeps. -/
def runLoop (isGet : Bool) (jitterOf : Nat → Nat) (route : String)
    (attempts : Nat → AttemptOutcome) : Nat → LoopIterState → Option LoopExit
  | 0, _ => none
  | fuel + 1, s =>
    if s.now < s.st.global_reset_at then
      runLoop isGet jitterOf route attempts fuel
        { s with now := s.st.global_reset_at }
    else
      let b1 := rollBucket (s.st.entryOrDefault route s.now) s.now
      if b1.remaining = 0 ∧ b1.reset_at - s.now ≠ 0 then
        runLoop isGet jitterOf route attempts fuel
          { s with st := s.st.writeBucket route b1,
                   now := s.now + (b1.reset_at - s.now) + 100 }
      else
        let b2 := refillIfZero b1
        let stA := s.st.writeBucket route { b2 with remaining := b2.remaining - 1 }
        let sendAt := jitteredSend isGet jitterOf s.attemptIdx s.now
        match attempts s.attemptIdx with
        | .transportErr =>
          if s.retry_count < MAX_RETRIES then
            runLoop isGet jitterOf route attempts fuel
              { st := stA, retry_count := s.retry_count + 1,
                attemptIdx := s.attemptIdx + 1,
                now := sendAt + oneSecond * (s.retry_count + 1),
                sendTimes := s.sendTimes ++ [sendAt],
                backoffs := s.backoffs ++ [oneSecond * (s.retry_count + 1)] }
          else
            some { result := .err, attempts := s.attemptIdx + 1,
                   sendTimes := s.sendTimes ++ [sendAt], backoffs := s.backoffs,
                   finalState := stA, finalNow := sendAt }
        | .response status h =>
          let stB := update_limits stA route h (status == 429) sendAt
          if status == 429 then
            runLoop isGet jitterOf route attempts fuel
              { st := stB, retry_count := s.retry_count,
                attemptIdx := s.attemptIdx + 1, now := sendAt,
                sendTimes := s.sendTimes ++ [sendAt], backoffs := s.backoffs }
          else if is_success status = false ∧ is_server_error status = true ∧
              s.retry_count < MAX_RETRIES then
            runLoop isGet jitterOf route attempts fuel
              { st := stB, retry_count := s.retry_count + 1,
                attemptIdx := s.attemptIdx + 1,
                now := sendAt + oneSecond * (s.retry_count + 1),
                sendTimes := s.sendTimes ++ [sendAt],
                backoffs := s.backoffs ++ [oneSecond * (s.retry_count + 1)] }
          else
            some { result := .ok status h, attempts := s.attemptIdx + 1,
                   sendTimes := s.sendTimes ++ [sendAt], backoffs := s.backoffs,
                   finalState := stB, finalNow := sendAt }

/-- The limiter state at actor startup: an empty bucket map and a
global reset instant in the past. -/
def freshLimiter : LimiterState :=
  { buckets := fun _ => none, global_reset_at := 0 }

/-- The loop state for a request picked up at instant 0 on a fresh
actor. -/
def initIter : LoopIterState :=
  { st := freshLimiter, retry_count := 0, attemptIdx := 0, now := 0,
    sendTimes := [], backoffs := [] }

/-! ## The route classifier `RateLimiterActor::get_route` -/

/-- A character the `url` crate accepts inside a URL scheme after the
leading letter. -/
def isSchemeChar (c : Char) : Bool :=
  c.isAlpha || c.isDigit || c = '+' || c = '-' || c = '.'

/-- Models `url::Url::parse(url)` followed by `.path()` for the URLs
the classifier receives: an absolute hierarchical URL
`scheme://authority/path?query#fragment` parses to its path component
(the part from the first `/` after the authority, stopping at `?` or
`#`; `/` when that part is empty), and anything without a valid
`scheme://` head fails to parse (`none`), which `get_route` sends to
the default bucket. -/
def urlPath (u : List Char) : Option (List Char) :=
  let scheme := u.takeWhile (fun c => c != ':')
  match u.dropWhile (fun c => c != ':') with
  | ':' :: '/' :: '/' :: tail =>
    match scheme with
    | [] => none
    | c :: cs =>
      if c.isAlpha && cs.all isSchemeChar then
        let afterHost :=
          tail.dropWhile (fun ch => ch != '/' && ch != '?' && ch != '#')
        let path := afterHost.takeWhile (fun ch => ch != '?' && ch != '#')
        some (if path.isEmpty then ['/'] else path)
      else none
  | _ => none

/-- Splits a character list at every `/`, keeping empty pieces, like
`str::split` with the `/` pattern in Rust. -/
def splitSlash : List Char → List (List Char)
  | [] => [[]]
  | c :: cs =>
    if c = '/' then [] :: splitSlash cs
    else
      match splitSlash cs with
      | s :: rest => (c :: s) :: rest
      | [] => [[c]]

/-- The segment matching of `get_route` (rate_limiter.rs lines 69-90)
over the non-empty path segments: a `channels` segment followed by an
id (and possibly `messages`), then a `guilds` segment followed by an
id, then a `relationships` segment anywhere, then an `@me` segment
anywhere, and otherwise the catch-all `default` bucket. -/
def routeOfSegments (segs : List (List Char)) : String :=
  let chan :=
    match segs.findIdx? (fun s => s == "channels".toList) with
    | some pos =>
      match segs[pos + 1]? with
      | some id =>
        if segs[pos + 2]? = some "messages".toList then
          some ("channels/" ++ String.mk id ++ "/messages")
        else
          some ("channels/" ++ String.mk id)
      | none => none
    | none => none
  match chan with
  | some r => r
  | none =>
    let guild :=
      match segs.findIdx? (fun s => s == "guilds".toList) with
      | some pos =>
        match segs[pos + 1]? with
        | some id => some ("guilds/" ++ String.mk id)
        | none => none
      | none => none
    match guild with
    | some r => r
    | none =>
      if segs.contains "relationships".toList then "relationships"
      else if segs.contains "@me".toList then "users/@me"
      else "default"

/-- Embeds `RateLimiterActor::get_route` (rate_limiter.rs lines
61-91): parse the URL (parse failure goes to the default bucket),
split the path on `/`, drop empty segments, and match the segment
categories. -/
def get_route (url : List Char) : String :=
  match urlPath url with
  | none => "default"
  | some path => routeOfSegments ((splitSlash path).filter (fun s => !s.isEmpty))

/-! ## The actor loop: the inbox is processed one request at a time -/

/-- A queued request as the actor sees it: the URL (classified to a
route by `get_route`), whether it is a GET (non-GETs sleep a jitter
before the send), the jitter draw per attempt, and the transport
outcome script. -/
structure ActorRequest where
  url : List Char
  isGet : Bool
  jitterOf : Nat → Nat
  attempts : Nat → AttemptOutcome

/-- Embeds the `while let Some(request) = self.inbox.recv().await`
loop of `RateLimiterActor::run` (rate_limiter.rs line 95): the single
actor task runs the whole dispatch loop — including every throttle
wait and the HTTP round-trip — for one request before receiving the
next; the shared limiter state and the clock carry over between
requests.  Returns the exits of the requests in order. -/
def runActor (fuelPerReq : Nat) :
    List ActorRequest → LimiterState → Nat → Option (List LoopExit)
  | [], _, _ => some []
  | req :: rest, st, now =>
    match runLoop req.isGet req.jitterOf (get_route req.url) req.attempts
        fuelPerReq
        { st := st, retry_count := 0, attemptIdx := 0, now := now,
          sendTimes := [], backoffs := [] } with
    | none => none
    | some e =>
      (runActor fuelPerReq rest e.finalState e.finalNow).map (fun l => e :: l)

/-- A GET to the messages endpoint of channel 9, answered 200. -/
def c6ReqThrottled : ActorRequest :=
  { url := "https://discord.com/api/v9/channels/9/messages".toList,
    isGet := true, jitterOf := fun _ => 0,
    attempts := fun _ => .response 200 noHeaders }

/-- A GET to the `users/@me` route, answered 200. -/
def c6ReqOther : ActorRequest :=
  { url := "https://discord.com/api/v9/users/@me".toList,
    isGet := true, jitterOf := fun _ => 0,
    attempts := fun _ => .response 200 noHeaders }

/-- A limiter state whose `channels/9/messages` bucket is exhausted
until instant `T`; every other bucket fresh, no global throttle. -/
def c6State (T : Nat) : LimiterState :=
  { buckets := fun r => if r = "channels/9/messages" then
      some { remaining := 0, reset_at := T, limit := 1, consecutive_429s := 0 }
      else none,
    global_reset_at := 0 }

/-! ## The operation state machine -/

/-- The shared flags of `OperationState` (core/op_manager.rs) together
with the permit state of its `pause_notifier : Notify`:
`notify_pending` is true when a notification permit is stored;
`notified().await` completes only by consuming a permit. -/
structure OpState where
  is_running : Bool
  is_paused : Bool
  should_abort : Bool
  notify_pending : Bool
deriving DecidableEq, Repr

/-- The three flag-flipping Tauri commands of api/discord.rs:
`pause_operation`, `resume_operation`, `abort_operation`. -/
inductive UiCommand where
  | pauseOp
  | resumeOp
  | abortOp
deriving DecidableEq, Repr

/-- Embeds the command handlers (discord.rs lines 424-446):
`pause_operation` stores `is_paused := true`; `resume_operation`
stores `is_paused := false`; `abort_operation` stores
`should_abort := true` and `is_paused := false`.  None of them touches
`pause_notifier` — no call to `notify_one` or `notify_waiters` exists
anywhere in the repository — so no command sets `notify_pending`. -/
def applyCommand (s : OpState) : UiCommand → OpState
  | .pauseOp => { s with is_paused := true }
  | .resumeOp => { s with is_paused := false }
  | .abortOp => { s with should_abort := true, is_paused := false }

/-- Where a task executing `OperationState::wait_if_paused` stands:
about to load `is_paused` at the `while` head (`checking`), suspended
inside `pause_notifier.notified().await` (`parked`), or returned. -/
inductive WaiterLoc where
  | checking
  | parked
  | returned
deriving DecidableEq, Repr

/-- One step of `wait_if_paused` (op_manager.rs lines 41-45): at the
loop head the flag is loaded — when paused the task starts awaiting
the notifier, otherwise the function returns; a parked task advances
only by consuming a notification permit, and has no enabled step
without one (`none`). -/
def waiterStep (s : OpState) : WaiterLoc → Option (OpState × WaiterLoc)
  | .checking => some (s, if s.is_paused then .parked else .returned)
  | .parked =>
    if s.notify_pending then some ({ s with notify_pending := false }, .checking)
    else none
  | .returned => none

/-- The state machine at startup (`OperationManager::new`). -/
def opInit : OpState :=
  { is_running := false, is_paused := false, should_abort := false,
    notify_pending := false }

/-! ## The bulk workflow `bulk_delete_messages` -/

/-- The three operation flags as a plain value, for the sequential
workflow model in which only the workflow itself mutates them. -/
structure OpFlags where
  is_running : Bool
  is_paused : Bool
  should_abort : Bool
deriving DecidableEq, Repr

/-- `OperationState::reset` (op_manager.rs lines 48-52): all three
flags return to false. -/
def OpFlags.reset (_f : OpFlags) : OpFlags :=
  { is_running := false, is_paused := false, should_abort := false }

/-- A reaction, as read from the JSON fields the code uses:
`me`, `emoji.name`, `emoji.id`. -/
structure Reaction where
  me : Bool
  emojiName : String
  emojiId : String
deriving DecidableEq, Repr

/-- A message, as read from the JSON fields the code uses: the
optional id string, the content, the parsed timestamp (0 when missing
or unparseable), whether the attachments array is non-empty, and the
optional reactions array. -/
structure Msg where
  id : Option String
  content : String
  timestamp : Nat
  hasAttachments : Bool
  reactions : Option (List Reaction)
deriving DecidableEq, Repr

/-- The result of one `api_handle.send_request(..)` call as seen by
`bulk_delete_messages`: an `Err` (propagated by `?` on the fetch
path), or a response carrying a status and — when read as a message
list — its JSON decode result (`none` models a decode failure, which
`?` also propagates). -/
inductive ApiOutcome where
  | err
  | ok (status : Nat) (msgs : Option (List Msg))

/-- The parameters of the `bulk_delete_messages` command. -/
structure PurgeParams where
  channel_ids : List String
  start_time : Option Nat
  end_time : Option Nat
  search_query : Option String
  purge_reactions : Bool
  simulation : Bool
  only_attachments : Bool

/-- The running state of the command: the shared flags, the index of
the next API call in the outcome script, and the deletion counter. -/
structure CmdState where
  flags : OpFlags
  apiIdx : Nat
  deleted_total : Nat

/-- Consumes the next scripted API outcome. -/
def nextApi (api : Nat → ApiOutcome) (s : CmdState) : ApiOutcome × CmdState :=
  (api s.apiIdx, { s with apiIdx := s.apiIdx + 1 })

/-- Substring test over character lists (`str::contains` in Rust). -/
def listContainsSub (q : List Char) : List Char → Bool
  | [] => q.isEmpty
  | c :: t => q.isPrefixOf (c :: t) || listContainsSub q t

/-- `content.to_lowercase().contains(&query.to_lowercase())` of
discord.rs line 219 (ASCII lowercasing in the model). -/
def matchesQuery (search_query : Option String) (content : String) : Bool :=
  match search_query with
  | some query => listContainsSub query.toLower.toList content.toLower.toList
  | none => true

/-- `wait_if_paused` inside the sequential workflow model: when the
pause flag is set the await never completes (no notifier is ever
notified — see claim C1), modelled as divergence (`none`). -/
def waitIfPausedSeq (s : CmdState) : Option CmdState :=
  if s.flags.is_paused then none else some s

/-- How an inner loop hands control back: fall through to the item
after the current list, or break out of the labelled message loop. -/
inductive LoopSignal where
  | cont (s : CmdState)
  | breakOut (s : CmdState)

/-- The reaction loop of discord.rs lines 229-242: for each reaction,
wait if paused, break the message loop on abort, and issue an ignored
DELETE for each reaction marked `me`. -/
def processReactions (api : Nat → ApiOutcome) :
    List Reaction → CmdState → Option LoopSignal
  | [], s => some (.cont s)
  | r :: rest, s =>
    match waitIfPausedSeq s with
    | none => none
    | some s =>
      if s.flags.should_abort then some (.breakOut s)
      else
        let s := if r.me then (nextApi api s).2 else s
        processReactions api rest s

/-- The per-message body of discord.rs lines 211-257: pause/abort
checkpoints, the time-window and attachment filters, the optional
reaction purge, the DELETE call (counted only when it returned a
success status), and the simulation counter. -/
def processMsgs (api : Nat → ApiOutcome) (params : PurgeParams)
    (last_message_id : Option String) :
    List Msg → CmdState → Option LoopSignal
  | [], s => some (.cont s)
  | m :: rest, s =>
    match waitIfPausedSeq s with
    | none => none
    | some s =>
      if s.flags.should_abort then some (.breakOut s)
      else
        let matches_query := matchesQuery params.search_query m.content
        let skip_start : Bool :=
          match params.start_time with
          | some start => decide (m.timestamp < start)
          | none => false
        if skip_start then
          if last_message_id.isSome then some (.breakOut s)
          else processMsgs api params last_message_id rest s
        else
          let skip_end : Bool :=
            match params.end_time with
            | some endt => decide (endt < m.timestamp)
            | none => false
          if skip_end then processMsgs api params last_message_id rest s
          else if params.only_attachments && !m.hasAttachments then
            processMsgs api params last_message_id rest s
          else
            let step : Option LoopSignal :=
              if params.simulation = false then
                let afterReactions : Option LoopSignal :=
                  if params.purge_reactions then
                    match m.reactions with
                    | some rs => processReactions api rs s
                    | none => some (.cont s)
                  else some (.cont s)
                match afterReactions with
                | none => none
                | some (.breakOut s) => some (.breakOut s)
                | some (.cont s) =>
                  if matches_query then
                    match nextApi api s with
                    | (.ok status _, s) =>
                      if is_success status then
                        some (.cont
                          { s with deleted_total := s.deleted_total + 1 })
                      else some (.cont s)
                    | (.err, s) => some (.cont s)
                  else some (.cont s)
              else
                if matches_query then
                  some (.cont { s with deleted_total := s.deleted_total + 1 })
                else some (.cont s)
            match step with
            | none => none
            | some (.breakOut s) => some (.breakOut s)
            | some (.cont s) => processMsgs api params last_message_id rest s

/-- How the per-channel `'message_loop` ended: left normally (`done`),
or a `?` propagated an error out of the whole command (`errored`);
`none` is divergence (parked on pause, or out of fuel). -/
inductive ChanFlow where
  | done (s : CmdState)
  | errored (s : CmdState)

/-- The `'message_loop` of discord.rs lines 190-258 for one channel:
pause/abort checkpoint, the paginated GET (whose `Err` the `?` at line
197 propagates), the consecutive-failure counter and its `> 3` bail
out, the JSON decode (whose failure the `?` at line 207 propagates),
the empty-page exit, and the per-message processing. -/
def msgLoop (api : Nat → ApiOutcome) (params : PurgeParams) :
    Nat → Option String → Nat → CmdState → Option ChanFlow
  | 0, _, _, _ => none
  | fuel + 1, last_message_id, consecutive_failures, s =>
    match waitIfPausedSeq s with
    | none => none
    | some s =>
      if s.flags.should_abort then some (.done s)
      else
        match nextApi api s with
        | (.err, s) => some (.errored s)
        | (.ok status body, s) =>
          if is_success status = false then
            let cf := consecutive_failures + 1
            if 3 < cf then some (.done s)
            else msgLoop api params fuel last_message_id cf s
          else
            match body with
            | none => some (.errored s)
            | some msgs =>
              if msgs.isEmpty then some (.done s)
              else
                let last2 := msgs.getLast?.bind Msg.id
                match processMsgs api params last2 msgs s with
                | none => none
                | some (.breakOut s) => some (.done s)
                | some (.cont s) => msgLoop api params fuel last2 0 s

/-- The `for (i, channel_id) in channel_ids` loop of discord.rs line
184: each channel starts a fresh message loop with no pagination
cursor and a zero failure counter; an `errored` exit propagates out of
the whole command at once. -/
def chanLoop (api : Nat → ApiOutcome) (params : PurgeParams) (fuel : Nat) :
    List String → CmdState → Option ChanFlow
  | [], s => some (.done s)
  | _ :: rest, s =>
    match msgLoop api params fuel none 0 s with
    | none => none
    | some (.errored s) => some (.errored s)
    | some (.done s) => chanLoop api params fuel rest s

/-- The result of the command: `Ok(())` or an `Err` propagated by `?`. -/
inductive CmdResult where
  | success
  | failure
deriving DecidableEq, Repr

/-- Embeds the `bulk_delete_messages` Tauri command (discord.rs lines
163-264) as a sequential interpreter over a script of API outcomes.
`tokenOk` models whether `Vault::get_active_token` succeeded (its
failure is propagated by `?` before any flag is touched).  The command
stores `is_running := true`, runs the channel loop, and calls
`reset()` only on the normal-completion path — an `Err` propagated by
`?` from inside the loop returns with the flags as they were.  The
returned pair is the command result and the flag state at the instant
the command returns; `none` is divergence. -/
def bulk_delete_messages (tokenOk : Bool) (params : PurgeParams)
    (api : Nat → ApiOutcome) (fuel : Nat) (flags0 : OpFlags) :
    Option (CmdResult × OpFlags) :=
  if tokenOk = false then some (.failure, flags0)
  else
    let s0 : CmdState :=
      { flags := { flags0 with is_running := true }, apiIdx := 0,
        deleted_total := 0 }
    match chanLoop api params fuel params.channel_ids s0 with
    | none => none
    | some (.errored s) => some (.failure, s.flags)
    | some (.done s) => some (.success, s.flags.reset)

/-- The parameters of a plain full purge of one channel: no filters,
no simulation, no reaction purge. -/
def c4Params : PurgeParams :=
  { channel_ids := ["c1"], start_time := none, end_time := none,
    search_query := none, purge_reactions := false, simulation := false,
    only_attachments := false }

end DiscordPurge

open DiscordPurge

/-- The header overwrites never touch `consecutive_429s`. -/
theorem applyFeedbackHeaders_consecutive (b : BucketInfo) (headers : Headers)
    (now : Nat) :
    (applyFeedbackHeaders b headers now).consecutive_429s = b.consecutive_429s := by
  simp only [applyFeedbackHeaders]
  split <;> split <;> split <;> rfl

/-- With none of the `X-RateLimit-*` headers present, the header
overwrites are the identity. -/
theorem applyFeedbackHeaders_none (b : BucketInfo) (headers : Headers) (now : Nat)
    (hrem : headers.xRateLimitRemaining = none)
    (hres : headers.xRateLimitResetAfter = none)
    (hlim : headers.xRateLimitLimit = none) :
    applyFeedbackHeaders b headers now = b := by
  simp [applyFeedbackHeaders, hrem, hres, hlim]

/-- The computed throttle wait is at least the parsed Retry-After
value. -/
theorem le_throttleWait (headers : Headers) (t c : Nat)
    (hret : headers.retryAfter = some t) : t ≤ throttleWait headers c := by
  simp only [throttleWait, hret, Option.getD_some]
  split
  · exact Nat.le_add_right t _
  · exact Nat.le_refl t

/-- Spending more fuel never changes a delivered result: once the loop
exits with a result, the exit does not depend on the remaining fuel. -/
theorem runLoop_mono (isGet : Bool) (j : Nat → Nat) (route : String)
    (attempts : Nat → AttemptOutcome) :
    ∀ (f : Nat) (s : LoopIterState) (e : LoopExit),
      runLoop isGet j route attempts f s = some e →
      ∀ k, runLoop isGet j route attempts (f + k) s = some e := by
  intro f
  induction f with
  | zero => intro s e h k; simp [runLoop] at h
  | succ f ih =>
    intro s e h k
    rw [show f + 1 + k = f + k + 1 by omega]
    simp only [runLoop] at h ⊢
    split
    · rename_i hc
      rw [if_pos hc] at h
      exact ih _ _ h k
    · rename_i hc
      rw [if_neg hc] at h
      split
      · rename_i hc2
        rw [if_pos hc2] at h
        exact ih _ _ h k
      · rename_i hc2
        rw [if_neg hc2] at h
        split
        · rename_i heq
          simp only [heq] at h
          split
          · rename_i hc3
            rw [if_pos hc3] at h
            exact ih _ _ h k
          · rename_i hc3
            rw [if_neg hc3] at h
            exact h
        · rename_i status hh heq
          simp only [heq] at h
          split
          · rename_i hc3
            rw [if_pos hc3] at h
            exact ih _ _ h k
          · rename_i hc3
            rw [if_neg hc3] at h
            split
            · rename_i hc4
              rw [if_pos hc4] at h
              exact ih _ _ h k
            · rename_i hc4
              rw [if_neg hc4] at h
              exact h

/-- Whatever the fuel, the state and the script, a result delivered
through the success arm of the loop never carries status 429: the 429
branch always re-enters the loop instead. -/
theorem runLoop_result_never_429 (isGet : Bool) (j : Nat → Nat) (route : String)
    (attempts : Nat → AttemptOutcome) :
    ∀ (fuel : Nat) (s : LoopIterState) (status : Nat) (h : Headers),
      (runLoop isGet j route attempts fuel s).map LoopExit.result =
        some (.ok status h) →
      status ≠ 429 := by
  intro fuel
  induction fuel with
  | zero => intro s status h heq; simp [runLoop] at heq
  | succ f ih =>
    intro s status h heq
    simp only [runLoop] at heq
    split at heq
    · exact ih _ _ _ heq
    · split at heq
      · exact ih _ _ _ heq
      · split at heq
        · split at heq
          · exact ih _ _ _ heq
          · have hres : some SendResult.err = some (SendResult.ok status h) := heq
            injection hres with h3
            injection h3
        · rename_i status0 h0 heq2
          split at heq
          · exact ih _ _ _ heq
          · split at heq
            · exact ih _ _ _ heq
            · rename_i hc429 hcsrv
              have hres : some (SendResult.ok status0 h0) =
                  some (SendResult.ok status h) := heq
              injection hres with h3
              injection h3 with hs hh
              simp only [beq_iff_eq] at hc429
              intro hcontra
              exact hc429 (hs.trans hcontra)

/-- When every attempt keeps answering 429, the loop never delivers
anything, whatever the fuel: the request is re-entered forever. -/
theorem runLoop_429_always_retries (isGet : Bool) (j : Nat → Nat) (route : String)
    (attempts : Nat → AttemptOutcome)
    (hall : ∀ i, ∃ hh, attempts i = .response 429 hh) :
    ∀ (fuel : Nat) (s : LoopIterState),
      runLoop isGet j route attempts fuel s = none := by
  intro fuel
  induction fuel with
  | zero => intro s; rfl
  | succ f ih =>
    intro s
    obtain ⟨hh, hatt⟩ := hall s.attemptIdx
    simp [runLoop, hatt, ih]

/-- Claim C8: after a non-global throttle response whose Retry-After
parsed to `t`, the same bucket has `remaining = 0` and
`reset_at ≥ now + t`, and every other bucket is unchanged. -/
theorem c8_throttle_exhausts_own_bucket_only (st : LimiterState) (route : String)
    (h : Headers) (now t : Nat) (hret : h.retryAfter = some t)
    (hglob : h.xRateLimitGlobal ≠ some "true") :
    (∃ b, (update_limits st route h true now).buckets route = some b ∧
      b.remaining = 0 ∧ now + t ≤ b.reset_at) ∧
    ∀ r, r ≠ route →
      (update_limits st route h true now).buckets r = st.buckets r := by
  have hroute : (update_limits st route h true now).buckets route =
      some { applyFeedbackHeaders (bumpConsecutive (st.entryOrDefault route now) true)
              h now with
            remaining := 0,
            reset_at := now + throttleWait h
              (applyFeedbackHeaders
                (bumpConsecutive (st.entryOrDefault route now) true) h
                now).consecutive_429s } := by
    simp [update_limits, LimiterState.writeBucket, hglob]
  refine ⟨⟨_, hroute, rfl, Nat.add_le_add_left (le_throttleWait h t _ hret) now⟩, ?_⟩
  intro r hr
  simp [update_limits, LimiterState.writeBucket, hglob, hr]

/-- Witness for claim C8 at a concrete input. -/
theorem c8_throttle_exhausts_own_bucket_only_witness :
    demoLocalHeaders.retryAfter = some 2000 ∧
    demoLocalHeaders.xRateLimitGlobal ≠ some "true" ∧
    ((∃ b, (update_limits demoState "channels/1" demoLocalHeaders true 100).buckets
        "channels/1" = some b ∧ b.remaining = 0 ∧ 100 + 2000 ≤ b.reset_at) ∧
      ∀ r, r ≠ "channels/1" →
        (update_limits demoState "channels/1" demoLocalHeaders true 100).buckets r =
          demoState.buckets r) :=
  ⟨rfl, by decide,
    c8_throttle_exhausts_own_bucket_only demoState "channels/1" demoLocalHeaders
      100 2000 rfl (by decide)⟩

/-- Claim C5 counterexample: a global throttle response does not leave
the bucket of the route untouched — `consecutive_429s` is incremented
even though the wait is applied to the global throttle.  Concretely,
with a bucket `⟨5, 0, 5, 0⟩` for route `channels/1` and a global 429
with Retry-After 2000 ms at instant 100, the global deadline becomes
2100 but the stored bucket changes. -/
theorem c5_global_throttle_counterexample :
    (update_limits demoState "channels/1" demoGlobalHeaders true 100).global_reset_at
      = 2100 ∧
    (update_limits demoState "channels/1" demoGlobalHeaders true 100).buckets
      "channels/1" ≠ demoState.buckets "channels/1" := by
  constructor
  · decide
  · decide

/-- Claim C5 (amended): a global throttle response sets the global
deadline to `now + wait` and does not apply the throttle-specific
bucket mutation — when no `X-RateLimit-*` headers are present,
`remaining`, `reset_at` and `limit` keep their old values — but
`consecutive_429s` of the bucket of the route is still incremented;
all other buckets are unchanged. -/
theorem c5_global_throttle_effect (st : LimiterState) (route : String)
    (h : Headers) (now : Nat) (hglob : h.xRateLimitGlobal = some "true")
    (hrem : h.xRateLimitRemaining = none) (hres : h.xRateLimitResetAfter = none)
    (hlim : h.xRateLimitLimit = none) :
    (update_limits st route h true now).global_reset_at =
      now + throttleWait h ((st.entryOrDefault route now).consecutive_429s + 1) ∧
    (update_limits st route h true now).buckets route =
      some { st.entryOrDefault route now with
              consecutive_429s := (st.entryOrDefault route now).consecutive_429s + 1 } ∧
    ∀ r, r ≠ route →
      (update_limits st route h true now).buckets r = st.buckets r := by
  have hb : ∀ b, applyFeedbackHeaders b h now = b := fun b =>
    applyFeedbackHeaders_none b h now hrem hres hlim
  refine ⟨?_, ?_, ?_⟩
  · simp [update_limits, LimiterState.writeBucket, hb, hglob, bumpConsecutive]
  · simp [update_limits, LimiterState.writeBucket, hb, hglob, bumpConsecutive]
  · intro r hr
    simp [update_limits, LimiterState.writeBucket, hglob, hr]

/-- Witness for the amended claim C5 at a concrete input. -/
theorem c5_global_throttle_effect_witness :
    demoGlobalHeaders.xRateLimitGlobal = some "true" ∧
    demoGlobalHeaders.xRateLimitRemaining = none ∧
    ((update_limits demoState "channels/1" demoGlobalHeaders true 100).global_reset_at =
      100 + throttleWait demoGlobalHeaders
        ((demoState.entryOrDefault "channels/1" 100).consecutive_429s + 1) ∧
    (update_limits demoState "channels/1" demoGlobalHeaders true 100).buckets
        "channels/1" =
      some { demoState.entryOrDefault "channels/1" 100 with
              consecutive_429s :=
                (demoState.entryOrDefault "channels/1" 100).consecutive_429s + 1 } ∧
    ∀ r, r ≠ "channels/1" →
      (update_limits demoState "channels/1" demoGlobalHeaders true 100).buckets r =
        demoState.buckets r) :=
  ⟨rfl, rfl,
    c5_global_throttle_effect demoState "channels/1" demoGlobalHeaders 100
      rfl rfl rfl rfl⟩

/-- Claim C10: when the Retry-After header is absent or unparseable,
feedback application behaves exactly as if the header had parsed to
one second: the update with a missing Retry-After equals the update
with Retry-After = 1000 ms. -/
theorem c10_missing_retry_after_defaults_to_one_second (st : LimiterState)
    (route : String) (h : Headers) (now : Nat) (habs : h.retryAfter = none) :
    update_limits st route h true now =
      update_limits st route { h with retryAfter := some oneSecond } true now := by
  simp only [update_limits, throttleWait, habs]
  rfl

/-- Witness for claim C10 at a concrete input. -/
theorem c10_missing_retry_after_defaults_to_one_second_witness :
    noHeaders.retryAfter = none ∧
    update_limits demoState "channels/1" noHeaders true 100 =
      update_limits demoState "channels/1"
        { noHeaders with retryAfter := some oneSecond } true 100 :=
  ⟨rfl, c10_missing_retry_after_defaults_to_one_second demoState "channels/1"
    noHeaders 100 rfl⟩

/-- Claim C2 counterexample: with a transport script that fails on
every attempt and ample fuel, the loop makes 4 attempts in total — not
the 3 the claim states — before delivering the transport error. -/
theorem c2_three_attempts_counterexample :
    (runLoop true (fun _ => 0) "default" (fun _ => .transportErr) 10
        initIter).map LoopExit.attempts = some 4 ∧
    (runLoop true (fun _ => 0) "default" (fun _ => .transportErr) 10
        initIter).map LoopExit.attempts ≠ some 3 ∧
    (runLoop true (fun _ => 0) "default" (fun _ => .transportErr) 10
        initIter).map LoopExit.result = some .err := by
  refine ⟨by decide, by decide, by decide⟩

/-- Claim C2 (amended): when the transport fails on the first 4
attempts, the loop makes exactly 4 attempts in total — the initial
send plus `MAX_RETRIES = 3` retries — sleeping `retry_count` seconds
(1 s, 2 s, 3 s) before each retry, makes no 5th attempt however much
fuel remains, and delivers the transport error to the caller. -/
theorem c2_transport_retry_bound (isGet : Bool) (j : Nat → Nat) (route : String)
    (attempts : Nat → AttemptOutcome) (fuel : Nat)
    (hatt : ∀ i, i < 4 → attempts i = .transportErr) (hfuel : 4 ≤ fuel) :
    ∃ e, runLoop isGet j route attempts fuel initIter = some e ∧
      e.result = .err ∧ e.attempts = 4 ∧ e.backoffs = [1000, 2000, 3000] := by
  obtain ⟨k, rfl⟩ : ∃ k, fuel = 4 + k := ⟨fuel - 4, by omega⟩
  have h0 := hatt 0 (by omega)
  have h1 := hatt 1 (by omega)
  have h2 := hatt 2 (by omega)
  have h3 := hatt 3 (by omega)
  have base1 : (runLoop isGet j route attempts 4 initIter).map LoopExit.result
      = some .err ∧
      (runLoop isGet j route attempts 4 initIter).map LoopExit.attempts
      = some 4 ∧
      (runLoop isGet j route attempts 4 initIter).map LoopExit.backoffs
      = some [1000, 2000, 3000] := by
    refine ⟨?_, ?_, ?_⟩ <;>
      simp [runLoop, initIter, freshLimiter, LimiterState.entryOrDefault,
        LimiterState.writeBucket, BucketInfo.defaultAt, MAX_RETRIES, oneSecond,
        rollBucket, refillIfZero, jitteredSend, h0, h1, h2, h3]
  obtain ⟨hb1, hb2, hb3⟩ := base1
  have base : ∃ e, runLoop isGet j route attempts 4 initIter = some e ∧
      e.result = .err ∧ e.attempts = 4 ∧ e.backoffs = [1000, 2000, 3000] := by
    cases hcase : runLoop isGet j route attempts 4 initIter with
    | none => rw [hcase] at hb1; exact Option.noConfusion hb1
    | some e =>
      rw [hcase] at hb1 hb2 hb3
      exact ⟨e, rfl, Option.some.inj hb1, Option.some.inj hb2,
        Option.some.inj hb3⟩
  obtain ⟨e, he, hp⟩ := base
  exact ⟨e, runLoop_mono isGet j route attempts 4 initIter e he k, hp⟩

/-- Witness for the amended claim C2 at a concrete input. -/
theorem c2_transport_retry_bound_witness :
    (∀ i, i < 4 → (fun _ => AttemptOutcome.transportErr) i =
      AttemptOutcome.transportErr) ∧ 4 ≤ 6 ∧
    ∃ e, runLoop true (fun _ => 0) "default" (fun _ => .transportErr) 6
        initIter = some e ∧
      e.result = .err ∧ e.attempts = 4 ∧ e.backoffs = [1000, 2000, 3000] :=
  ⟨fun _ _ => rfl, by omega,
    c2_transport_retry_bound true (fun _ => 0) "default"
      (fun _ => .transportErr) 6 (fun _ _ => rfl) (by omega)⟩

/-- Claim C3 counterexample: when every attempt answers with status
500, the loop delivers the 500 response through the success variant
(`Ok(response)`), not a terminal error. -/
theorem c3_server_error_counterexample :
    (runLoop true (fun _ => 0) "default" (fun _ => .response 500 noHeaders) 10
        initIter).map LoopExit.result = some (.ok 500 noHeaders) ∧
    (runLoop true (fun _ => 0) "default" (fun _ => .response 500 noHeaders) 10
        initIter).map LoopExit.result ≠ some .err := by
  refine ⟨by decide, by decide⟩

/-- Claim C3 (amended): when every attempt keeps answering a 5xx
status, the loop retries 3 times (4 attempts in total) and then
delivers the last 5xx response to the caller wrapped in the success
variant `Ok(response)` — not an `Err` — leaving the status check to
the caller. -/
theorem c3_server_error_retry_exhaustion (isGet : Bool) (j : Nat → Nat)
    (route : String) (attempts : Nat → AttemptOutcome) (status fuel : Nat)
    (h5 : 500 ≤ status) (h6 : status < 600)
    (hatt : ∀ i, i < 4 → attempts i = .response status noHeaders)
    (hfuel : 4 ≤ fuel) :
    ∃ e, runLoop isGet j route attempts fuel initIter = some e ∧
      e.result = .ok status noHeaders ∧ e.attempts = 4 := by
  obtain ⟨k, rfl⟩ : ∃ k, fuel = 4 + k := ⟨fuel - 4, by omega⟩
  have h0 := hatt 0 (by omega)
  have h1 := hatt 1 (by omega)
  have h2 := hatt 2 (by omega)
  have h3 := hatt 3 (by omega)
  have h429 : (status == 429) = false := by
    simp only [beq_eq_false_iff_ne]
    omega
  have hsu : is_success status = false := by
    simp only [is_success, Bool.and_eq_false_iff, decide_eq_false_iff_not]
    omega
  have hse : is_server_error status = true := by
    simp only [is_server_error, Bool.and_eq_true, decide_eq_true_eq]
    omega
  have base1 : (runLoop isGet j route attempts 4 initIter).map LoopExit.result
      = some (.ok status noHeaders) ∧
      (runLoop isGet j route attempts 4 initIter).map LoopExit.attempts
      = some 4 := by
    refine ⟨?_, ?_⟩ <;>
      simp [runLoop, initIter, freshLimiter, LimiterState.entryOrDefault,
        LimiterState.writeBucket, BucketInfo.defaultAt, MAX_RETRIES, oneSecond,
        rollBucket, refillIfZero, jitteredSend, update_limits, bumpConsecutive,
        applyFeedbackHeaders, noHeaders, h0, h1, h2, h3, h429, hsu, hse]
  obtain ⟨hb1, hb2⟩ := base1
  have base : ∃ e, runLoop isGet j route attempts 4 initIter = some e ∧
      e.result = .ok status noHeaders ∧ e.attempts = 4 := by
    cases hcase : runLoop isGet j route attempts 4 initIter with
    | none => rw [hcase] at hb1; exact Option.noConfusion hb1
    | some e =>
      rw [hcase] at hb1 hb2
      exact ⟨e, rfl, Option.some.inj hb1, Option.some.inj hb2⟩
  obtain ⟨e, he, hp⟩ := base
  exact ⟨e, runLoop_mono isGet j route attempts 4 initIter e he k, hp⟩

/-- Witness for the amended claim C3 at a concrete input. -/
theorem c3_server_error_retry_exhaustion_witness :
    500 ≤ 503 ∧ (503 : Nat) < 600 ∧
    (∀ i, i < 4 → (fun _ => AttemptOutcome.response 503 noHeaders) i =
      AttemptOutcome.response 503 noHeaders) ∧ 4 ≤ 5 ∧
    ∃ e, runLoop false (fun i => 100 + i) "channels/1/messages"
        (fun _ => .response 503 noHeaders) 5 initIter = some e ∧
      e.result = .ok 503 noHeaders ∧ e.attempts = 4 :=
  ⟨by omega, by omega, fun _ _ => rfl, by omega,
    c3_server_error_retry_exhaustion false (fun i => 100 + i)
      "channels/1/messages" (fun _ => .response 503 noHeaders) 503 5
      (by omega) (by omega) (fun _ _ => rfl) (by omega)⟩

/-- Claim C7: a 429 response is never delivered to the caller — a
result delivered through the success arm never has status 429
(whatever the script, jitter, route, state and fuel), and a request
whose every attempt answers 429 is retried forever, never delivering
at any fuel. -/
theorem c7_throttle_never_surfaced :
    (∀ (isGet : Bool) (j : Nat → Nat) (route : String)
        (attempts : Nat → AttemptOutcome) (fuel : Nat) (s : LoopIterState)
        (status : Nat) (h : Headers),
      (runLoop isGet j route attempts fuel s).map LoopExit.result =
        some (.ok status h) →
      status ≠ 429) ∧
    (∀ (isGet : Bool) (j : Nat → Nat) (route : String)
        (attempts : Nat → AttemptOutcome),
      (∀ i, ∃ hh, attempts i = .response 429 hh) →
      ∀ (fuel : Nat) (s : LoopIterState),
        runLoop isGet j route attempts fuel s = none) :=
  ⟨fun isGet j route attempts => runLoop_result_never_429 isGet j route attempts,
   fun isGet j route attempts => runLoop_429_always_retries isGet j route attempts⟩

/-- Witness for claim C7 at concrete inputs: a delivered 200 response
is not a 429, and an all-429 script never delivers. -/
theorem c7_throttle_never_surfaced_witness :
    ((runLoop true (fun _ => 0) "default" (fun _ => .response 200 noHeaders) 2
        initIter).map LoopExit.result = some (.ok 200 noHeaders) ∧
      (200 : Nat) ≠ 429) ∧
    ((∀ i : Nat, ∃ hh, (fun _ : Nat => AttemptOutcome.response 429 noHeaders) i =
        AttemptOutcome.response 429 hh) ∧
      runLoop true (fun _ => 0) "default" (fun _ => .response 429 noHeaders) 9
        initIter = none) :=
  ⟨⟨by decide,
    c7_throttle_never_surfaced.1 true (fun _ => 0) "default"
      (fun _ => .response 200 noHeaders) 2 initIter 200 noHeaders (by decide)⟩,
   ⟨fun _ => ⟨noHeaders, rfl⟩,
    c7_throttle_never_surfaced.2 true (fun _ => 0) "default"
      (fun _ : Nat => .response 429 noHeaders) (fun _ => ⟨noHeaders, rfl⟩) 9
      initIter⟩⟩

theorem dropWhile_head_false {α : Type} (p : α → Bool) :
    ∀ (l : List α) (c : α) (r : List α), List.dropWhile p l = c :: r → p c = false := by
  intro l
  induction l with
  | nil => intro c r h; simp [List.dropWhile] at h
  | cons c0 t ih =>
    intro c r h
    rw [List.dropWhile_cons] at h
    split at h
    · exact ih _ _ h
    · rename_i hc
      cases h
      exact Bool.not_eq_true _ |>.mp hc

theorem urlPath_append_query (u q : List Char) (hq : '?' ∉ u) (hh : '#' ∉ u) :
    urlPath (u ++ '?' :: q) = urlPath u := by
  by_cases hcolon : ':' ∈ u
  · have hdne : List.dropWhile (fun c => c != ':') u ≠ [] := by
      rw [Ne, List.dropWhile_eq_nil_iff]
      intro hall
      have := hall ':' hcolon
      simp at this
    have hdrop : List.dropWhile (fun c => c != ':') (u ++ '?' :: q) =
        List.dropWhile (fun c => c != ':') u ++ '?' :: q := by
      rw [List.dropWhile_append]
      simp only [List.isEmpty_iff]
      rw [if_neg hdne]
    have htake : List.takeWhile (fun c => c != ':') (u ++ '?' :: q) =
        List.takeWhile (fun c => c != ':') u := by
      rw [List.takeWhile_append]
      split
      · rename_i hlen
        exfalso
        apply hdne
        have hlen2 := congrArg List.length
          (List.takeWhile_append_dropWhile (fun c => c != ':') u)
        rw [List.length_append, hlen] at hlen2
        have : (List.dropWhile (fun c => c != ':') u).length = 0 := by omega
        exact List.eq_nil_of_length_eq_zero this
      · rfl
    rw [urlPath, urlPath, hdrop, htake]
    rcases hd : List.dropWhile (fun c => c != ':') u with _ | ⟨c1, d⟩
    · exact absurd hd hdne
    · have hc1 : c1 = ':' := by
        have := dropWhile_head_false (fun c => c != ':') u c1 d hd
        simpa using this
      subst hc1
      have hsubq : '?' ∉ d := fun hmem =>
        hq (List.Sublist.mem
          (by rw [hd]; exact List.mem_cons_of_mem ':' hmem)
          (List.dropWhile_sublist _))
      have hsubh : '#' ∉ d := fun hmem =>
        hh (List.Sublist.mem
          (by rw [hd]; exact List.mem_cons_of_mem ':' hmem)
          (List.dropWhile_sublist _))
      rcases d with _ | ⟨c2, d2⟩
      · rfl
      · by_cases hc2 : c2 = '/'
        · subst hc2
          rcases d2 with _ | ⟨c3, d3⟩
          · rfl
          · by_cases hc3 : c3 = '/'
            · subst hc3
              have hq3 : '?' ∉ d3 := fun hm => hsubq (by simp [hm])
              have hh3 : '#' ∉ d3 := fun hm => hsubh (by simp [hm])
              simp only [List.cons_append]
              split
              · rfl
              · have hpath : List.takeWhile (fun ch => ch != '?' && ch != '#')
                    (List.dropWhile (fun ch => ch != '/' && ch != '?' && ch != '#')
                      (d3 ++ '?' :: q)) =
                    List.takeWhile (fun ch => ch != '?' && ch != '#')
                    (List.dropWhile (fun ch => ch != '/' && ch != '?' && ch != '#')
                      d3) := by
                  rw [List.dropWhile_append]
                  split
                  · rename_i hemp
                    rw [List.isEmpty_iff] at hemp
                    rw [hemp, List.dropWhile_cons, if_neg (by decide),
                      List.takeWhile_cons, if_neg (by decide), List.takeWhile_nil]
                  · have hkeep : ∀ x ∈ List.dropWhile
                        (fun ch => ch != '/' && ch != '?' && ch != '#') d3,
                        ((x != '?' && x != '#') : Bool) = true := by
                      intro x hx
                      have hxd3 : x ∈ d3 :=
                        List.Sublist.mem hx (List.dropWhile_sublist _)
                      have hx1 : x ≠ '?' := fun he => hq3 (he ▸ hxd3)
                      have hx2 : x ≠ '#' := fun he => hh3 (he ▸ hxd3)
                      simp [hx1, hx2]
                    rw [List.takeWhile_append,
                      if_pos (by rw [List.takeWhile_eq_self_iff.mpr hkeep]),
                      List.takeWhile_cons, if_neg (by decide), List.append_nil,
                      List.takeWhile_eq_self_iff.mpr hkeep]
                rw [hpath]
            · simp [hc3]
        · simp [hc2]
  · have hdropu : List.dropWhile (fun c => c != ':') u = [] := by
      rw [List.dropWhile_eq_nil_iff]
      intro x hx
      have : x ≠ ':' := fun he => hcolon (he ▸ hx)
      simp [this]
    have htakeu : List.takeWhile (fun c => c != ':') u = u := by
      rw [List.takeWhile_eq_self_iff]
      intro x hx
      have : x ≠ ':' := fun he => hcolon (he ▸ hx)
      simp [this]
    rw [urlPath, urlPath, hdropu]
    have hdrop2 : List.dropWhile (fun c => c != ':') (u ++ '?' :: q) =
        List.dropWhile (fun c => c != ':') q := by
      rw [List.dropWhile_append]
      simp only [List.isEmpty_iff]
      rw [if_pos hdropu, List.dropWhile_cons, if_pos (by decide)]
    have htake2 : List.takeWhile (fun c => c != ':') (u ++ '?' :: q) =
        u ++ '?' :: List.takeWhile (fun c => c != ':') q := by
      rw [List.takeWhile_append, if_pos (by rw [htakeu]),
        List.takeWhile_cons, if_pos (by decide)]
    rw [hdrop2, htake2]
    rcases hdq : List.dropWhile (fun c => c != ':') q with _ | ⟨e1, dq⟩
    · rfl
    · have he1 : e1 = ':' := by
        have := dropWhile_head_false (fun c => c != ':') q e1 dq hdq
        simpa using this
      subst he1
      rcases dq with _ | ⟨e2, dq2⟩
      · rfl
      · by_cases he2 : e2 = '/'
        · subst he2
          rcases dq2 with _ | ⟨e3, dq3⟩
          · rfl
          · by_cases he3 : e3 = '/'
            · subst he3
              rcases u with _ | ⟨cu, us⟩
              · simp only [List.nil_append]
                rw [if_neg]
                intro hcond
                rw [Bool.and_eq_true] at hcond
                exact absurd hcond.1 (by decide)
              · simp only [List.cons_append]
                rw [if_neg]
                intro hcond
                rw [Bool.and_eq_true] at hcond
                have hall := hcond.2
                rw [List.all_append, Bool.and_eq_true] at hall
                have h2 := hall.2
                rw [List.all_cons, Bool.and_eq_true] at h2
                exact absurd h2.1 (by decide)
            · simp [he3]
        · simp [he2]

/-- Claim C9: the route classifier is a pure function of the parsed
path — URLs with equal parsed paths share a key, appending a query
string to a well-formed URL does not change its key, a URL that fails
to parse maps to the default bucket, and a URL none of whose path
segments is one of the four known categories (`channels`, `guilds`,
`relationships`, `@me`) maps to the default bucket. -/
theorem c9_route_classifier_pure_and_catchall :
    (∀ u v : List Char, urlPath u = urlPath v → get_route u = get_route v) ∧
    (∀ u q : List Char, '?' ∉ u → '#' ∉ u →
      get_route (u ++ '?' :: q) = get_route u) ∧
    (∀ u : List Char, urlPath u = none → get_route u = "default") ∧
    (∀ u p : List Char, urlPath u = some p →
      (∀ s ∈ (splitSlash p).filter (fun s => !s.isEmpty),
        s ≠ "channels".toList ∧ s ≠ "guilds".toList ∧
        s ≠ "relationships".toList ∧ s ≠ "@me".toList) →
      get_route u = "default") := by
  refine ⟨?_, ?_, ?_, ?_⟩
  · intro u v hp
    rw [get_route, get_route, hp]
  · intro u q hq hh
    rw [get_route, get_route, urlPath_append_query u q hq hh]
  · intro u hp
    rw [get_route, hp]
  · intro u p hp hseg
    rw [get_route, hp]
    show routeOfSegments ((splitSlash p).filter (fun s => !s.isEmpty)) = "default"
    have hchan : List.findIdx? (fun s => s == "channels".toList)
        ((splitSlash p).filter (fun s => !s.isEmpty)) = none := by
      rw [List.findIdx?_eq_none_iff]
      intro x hx
      have := (hseg x hx).1
      simpa using this
    have hguild : List.findIdx? (fun s => s == "guilds".toList)
        ((splitSlash p).filter (fun s => !s.isEmpty)) = none := by
      rw [List.findIdx?_eq_none_iff]
      intro x hx
      have := (hseg x hx).2.1
      simpa using this
    have hrel : ((splitSlash p).filter (fun s => !s.isEmpty)).contains
        "relationships".toList = false := by
      have hnm : "relationships".toList ∉
          (splitSlash p).filter (fun s => !s.isEmpty) := fun hmem =>
        (hseg _ hmem).2.2.1 rfl
      simpa using hnm
    have hme : ((splitSlash p).filter (fun s => !s.isEmpty)).contains
        "@me".toList = false := by
      have hnm : "@me".toList ∉
          (splitSlash p).filter (fun s => !s.isEmpty) := fun hmem =>
        (hseg _ hmem).2.2.2 rfl
      simpa using hnm
    rw [routeOfSegments.eq_def, hchan, hguild, hrel, hme]
    rfl

/-- Witness for claim C9 at concrete inputs: a guilds URL keyed from
its path, the same URL with a query string attached, an unparseable
URL, and an unknown-category URL. -/
theorem c9_route_classifier_pure_and_catchall_witness :
    (urlPath "https://discord.com/api/v9/guilds/7".toList =
      urlPath "https://discord.com/api/v9/guilds/7".toList ∧
      get_route "https://discord.com/api/v9/guilds/7".toList =
      get_route "https://discord.com/api/v9/guilds/7".toList) ∧
    ('?' ∉ "https://discord.com/api/v9/guilds/7".toList ∧
      '#' ∉ "https://discord.com/api/v9/guilds/7".toList ∧
      get_route ("https://discord.com/api/v9/guilds/7".toList ++
        '?' :: "limit=100".toList) =
      get_route "https://discord.com/api/v9/guilds/7".toList) ∧
    (urlPath "not a url".toList = none ∧
      get_route "not a url".toList = "default") ∧
    (urlPath "https://discord.com/api/v9/invites/abc".toList =
      some "/api/v9/invites/abc".toList ∧
      get_route "https://discord.com/api/v9/invites/abc".toList = "default") :=
  ⟨⟨rfl, c9_route_classifier_pure_and_catchall.1 _ _ rfl⟩,
   ⟨by decide, by decide,
    c9_route_classifier_pure_and_catchall.2.1 _ "limit=100".toList
      (by decide) (by decide)⟩,
   ⟨by decide, c9_route_classifier_pure_and_catchall.2.2.1 _ (by decide)⟩,
   ⟨by decide,
    c9_route_classifier_pure_and_catchall.2.2.2 _ "/api/v9/invites/abc".toList
      (by decide) (by decide)⟩⟩



/-- Claim C1 (code bug): after `pause_operation`, a task entering
`wait_if_paused` parks on `pause_notifier.notified().await`, and no
later sequence of resume/abort/pause commands ever unparks it: the
handlers only flip the atomic flags and never notify the notifier, so
the parked waiter has no enabled step even once `is_paused` is false
again. -/
theorem c1_resume_never_wakes_parked_waiter :
    waiterStep (applyCommand opInit .pauseOp) .checking =
      some (applyCommand opInit .pauseOp, .parked) ∧
    ∀ cmds : List UiCommand,
      waiterStep (cmds.foldl applyCommand (applyCommand opInit .pauseOp))
        .parked = none := by
  constructor
  · rfl
  · intro cmds
    have hperm : ∀ (l : List UiCommand) (s : OpState),
        s.notify_pending = false →
        (l.foldl applyCommand s).notify_pending = false := by
      intro l
      induction l with
      | nil => intro s h; exact h
      | cons c t ih =>
        intro s h
        cases c <;> exact ih _ h
    simp [waiterStep, hperm cmds (applyCommand opInit .pauseOp) rfl]

/-- Claim C4 (code bug): when the very first message fetch of
`bulk_delete_messages` fails at the transport level, the `?` at
discord.rs line 197 returns the error without calling `reset()`, so
the command returns with `is_running` still true — not with all three
flags false. -/
theorem c4_reset_skipped_on_error_path :
    bulk_delete_messages true c4Params (fun _ => .err) 2
        { is_running := false, is_paused := false, should_abort := false } =
      some (.failure,
        { is_running := true, is_paused := false, should_abort := false }) ∧
    ({ is_running := true, is_paused := false, should_abort := false } :
      OpFlags).is_running ≠ false := by
  refine ⟨by decide, by decide⟩



/-- Claim C6 counterexample: with the `channels/9/messages` bucket
exhausted until instant 10000, a request to the unthrottled
`users/@me` route queued behind one request to the exhausted bucket is
sent only at instant 10100, although the same request alone is sent at
instant 0 — the single actor loop delays it across the other bucket
wait. -/
theorem c6_serialized_actor_counterexample :
    (runActor 3 [c6ReqThrottled, c6ReqOther] (c6State 10000) 0).map
        (fun l => l.map LoopExit.sendTimes) = some [[10100], [10100]] ∧
    (runActor 3 [c6ReqOther] (c6State 10000) 0).map
        (fun l => l.map LoopExit.sendTimes) = some [[0]] := by
  refine ⟨by decide, by decide⟩



/-- Claim C6 (amended): the actor processes its inbox strictly one
request at a time, so for every wait `T` on the first request's
bucket, a request to a different, unthrottled bucket queued behind it
is sent only at instant `T + 100` (after the first bucket's wait plus
buffer), never before `T`. -/
theorem c6_sequential_actor_delays_other_buckets (T : Nat) (hT : 0 < T) :
    (runActor 3 [c6ReqThrottled, c6ReqOther] (c6State T) 0).map
        (fun l => l.map LoopExit.sendTimes) = some [[T + 100], [T + 100]] ∧
    T ≤ T + 100 := by
  have hr1 : get_route c6ReqThrottled.url = "channels/9/messages" := by decide
  have hr2 : get_route c6ReqOther.url = "users/@me" := by decide
  have hT0 : ¬ (T ≤ 0) := by omega
  have hTne : ¬ (T = 0) := by omega
  have hne : ("users/@me" : String) ≠ "channels/9/messages" := by decide
  refine ⟨?_, by omega⟩
  simp only [runActor, hr1, hr2]
  simp [c6ReqThrottled, c6ReqOther, c6State, runLoop,
    LimiterState.entryOrDefault, LimiterState.writeBucket, BucketInfo.defaultAt,
    rollBucket, refillIfZero, jitteredSend, update_limits, bumpConsecutive,
    applyFeedbackHeaders, noHeaders, MAX_RETRIES, oneSecond, is_success,
    is_server_error, hT0, hTne, hne, Nat.le_add_right]


/-- Witness for the amended claim C6 at `T = 10000`. -/
theorem c6_sequential_actor_delays_other_buckets_witness :
    0 < 10000 ∧
    ((runActor 3 [c6ReqThrottled, c6ReqOther] (c6State 10000) 0).map
        (fun l => l.map LoopExit.sendTimes) =
          some [[10000 + 100], [10000 + 100]] ∧
      10000 ≤ 10000 + 100) :=
  ⟨by omega, c6_sequential_actor_delays_other_buckets 10000 (by omega)⟩
